import Mathlib

/-!
Shallow embedding of the spatial-lookup core of `browser-geo-tz`
(`src/find.ts`: `init`, `find`, `findImpl`) and of the Ocean Fallback
utilities it imports, together with theorems settling the spec claims.

JavaScript numbers are modelled exactly as rationals (`ℚ`), with `NaN`
modelled as `none` where it can occur.  The untyped quadtree index nodes
are modelled as JSON-like values (`Json`), with the JavaScript dynamic
operations the source relies on (truthiness, `typeof`, property reads,
numeric coercion) given explicit definitions.  The two injected data
sources are modelled as oracles, and every provider invocation is
recorded in an explicit call trace so that I/O-related claims can be
stated about the trace.
-/

namespace GeoTz

/-- A JavaScript number argument: `none` models `NaN`, `some q` a finite
numeric value. -/
abbrev JsNum := Option ℚ

/-- JSON-like JavaScript values, used for the untyped quadtree nodes of the
index document.  `undefined` models `undefined` (in particular an absent child),
`null` the JSON null. -/
inductive Json where
  | undefined
  | null
  | bool (b : Bool)
  | num (q : ℚ)
  | str (s : String)
  | arr (elems : List Json)
  | obj (fields : List (String × Json))

/-- JavaScript truthiness (the `!curTzData` test in find.ts line 325). -/
def Json.truthy : Json → Bool
  | .undefined => false
  | .null => false
  | .bool b => b
  | .num q => q != 0
  | .str s => s != ""
  | .arr _ => true
  | .obj _ => true

/-- JavaScript `typeof` (find.ts line 362). -/
def Json.typeof : Json → String
  | .undefined => "undefined"
  | .null => "object"
  | .bool _ => "boolean"
  | .num _ => "number"
  | .str _ => "string"
  | .arr _ => "object"
  | .obj _ => "object"

/-- `undefined` and `null`, the values whose property reads throw a
TypeError in JavaScript. -/
def Json.isNullish : Json → Bool
  | .undefined => true
  | .null => true
  | _ => false

/-- JavaScript property read `v[k]` for non-nullish `v`: objects look up the
field, arrays and strings expose `length`, and any other read yields
`undefined`. -/
def Json.get : Json → String → Json
  | .obj fields, k =>
      match fields.find? (fun f => f.1 == k) with
      | some f => f.2
      | none => .undefined
  | .arr elems, k => if k == "length" then .num elems.length else .undefined
  | .str s, k => if k == "length" then .num s.length else .undefined
  | _, _ => .undefined

/-- JavaScript ToNumber on JSON values, with `none` for `NaN`.  String
coercion is modelled for whitespace and integer literals, and array
coercion for the empty and singleton cases — the only shapes the source
can meet on index data relevant here; all other objects coerce to `NaN`. -/
def Json.toNum? : Json → Option ℚ
  | .undefined => none
  | .null => some 0
  | .bool b => some (if b then 1 else 0)
  | .num q => some q
  | .str s => if s.trim = "" then some 0 else (s.trim.toInt?).map (fun n => (n : ℚ))
  | .arr [] => some 0
  | .arr [x] => x.toNum?
  | .arr (_ :: _ :: _) => none
  | .obj _ => none

/-- JavaScript `v >= 0` (the `curTzData.pos >= 0` guard, find.ts line 328):
false when the coerced value is `NaN`. -/
def jsGE0 (v : Json) : Bool :=
  match v.toNum? with
  | some q => decide (0 ≤ q)
  | none => false

/-- JavaScript `v > 0` (the `curTzData.length > 0` guard, find.ts
line 358): false when the coerced value is `NaN`. -/
def jsGT0 (v : Json) : Bool :=
  match v.toNum? with
  | some q => decide (0 < q)
  | none => false

/-- The byte-range end `curTzData.pos + curTzData.len - 1` (find.ts
line 332), with `NaN` propagation through ToNumber. -/
def jsRangeEnd (pos len : Json) : Option ℚ :=
  match pos.toNum?, len.toNum? with
  | some p, some l => some (p + l - 1)
  | _, _ => none

/-- JavaScript indexing `timezones[idx]` (find.ts line 361): a non-negative
in-range integer index reads the table entry, anything else yields
`undefined` (`none`). -/
def jsIndexTz (tzs : List String) : Json → Option String
  | .num q => if q.den = 1 ∧ 0 ≤ q.num then tzs[q.num.toNat]? else none
  | _ => none

/-- The failures `findImpl` can raise: the two coordinate validation errors
(find.ts lines 252-261), a JavaScript TypeError (property access on a
nullish value, or calling `.map` on a non-array), and the
`"Unexpected data type"` error of find.ts line 364. -/
inductive JsErr where
  | invalidLatitude
  | invalidLongitude
  | typeError
  | unexpectedDataType
  deriving DecidableEq

/-- The spec's `InvalidCoordinate` failure covers both validation errors. -/
def JsErr.isInvalidCoordinate : JsErr → Bool
  | .invalidLatitude => true
  | .invalidLongitude => true
  | _ => false

/-- One provider invocation, recorded in the call trace: an index-document
fetch, or a geometry byte-range fetch with its start and end offsets
(`none` for an offset that coerced to `NaN`). -/
inductive Call where
  | tzFetch
  | geoFetch (start stop : Option ℚ)
  deriving DecidableEq

/-- Number of index-document fetches in a trace. -/
def tzCount (calls : List Call) : Nat :=
  calls.countP (fun c => match c with | .tzFetch => true | _ => false)

/-- A property read that yields a truthy value of `typeof` `"object"` must
have read an object field, so its result is structurally smaller than the
value read from.  This is the measure fact behind termination of the
descent loop. -/
theorem get_truthy_obj_sizeOf (cur : Json) (k : String)
    (ht : (cur.get k).truthy = true) (hty : (cur.get k).typeof = "object") :
    sizeOf (cur.get k) < sizeOf cur := by
  cases cur with
  | obj fields =>
    cases hfind : fields.find? (fun f => f.1 == k) with
    | none =>
      simp only [Json.get, hfind, Json.truthy] at ht
      exact Bool.noConfusion ht
    | some f =>
      have hg : (Json.obj fields).get k = f.2 := by
        simp only [Json.get, hfind]
      rw [hg]
      have hmem : f ∈ fields := List.mem_of_find?_eq_some hfind
      have h1 : sizeOf f < sizeOf fields := List.sizeOf_lt_of_mem hmem
      have h2 : sizeOf f.2 < sizeOf f := by
        cases f with | mk a b => simp <;> omega
      simp only [Json.obj.sizeOf_spec]
      omega
  | arr elems =>
    by_cases hk : (k == "length") = true
    · simp [Json.get, hk, Json.typeof] at hty
    · simp only [Bool.not_eq_true] at hk
      simp [Json.get, hk, Json.truthy] at ht
  | str s =>
    by_cases hk : (k == "length") = true
    · simp [Json.get, hk, Json.typeof] at hty
    · simp only [Bool.not_eq_true] at hk
      simp [Json.get, hk, Json.truthy] at ht
  | undefined => simp [Json.get, Json.truthy] at ht
  | null => simp [Json.get, Json.truthy] at ht
  | bool b => simp [Json.get, Json.truthy] at ht
  | num q => simp [Json.get, Json.truthy] at ht

/-- Reading any child field other than `length` from a truthy value of
object type yields a structurally smaller value (possibly `undefined`).
This is the measure fact behind termination of the well-formedness
predicate. -/
theorem get_child_sizeOf (cur : Json) (k : String)
    (ht : cur.truthy = true) (hty : cur.typeof = "object") (hk : k ≠ "length") :
    sizeOf (cur.get k) < sizeOf cur := by
  cases cur with
  | obj fields =>
    cases hfind : fields.find? (fun f => f.1 == k) with
    | none =>
      have hf : 0 < sizeOf fields := by cases fields <;> simp <;> omega
      simp only [Json.get, hfind]
      simp only [Json.obj.sizeOf_spec, Json.undefined.sizeOf_spec]
      omega
    | some f =>
      have hg : (Json.obj fields).get k = f.2 := by
        simp only [Json.get, hfind]
      rw [hg]
      have hmem : f ∈ fields := List.mem_of_find?_eq_some hfind
      have h1 : sizeOf f < sizeOf fields := List.sizeOf_lt_of_mem hmem
      have h2 : sizeOf f.2 < sizeOf f := by
        cases f with | mk a b => simp <;> omega
      simp only [Json.obj.sizeOf_spec]
      omega
  | arr elems =>
    have hk' : (k == "length") = false := beq_eq_false_iff_ne.mpr hk
    have hf : 0 < sizeOf elems := by cases elems <;> simp <;> omega
    simp [Json.get, hk']
    omega
  | str s => simp [Json.typeof] at hty
  | undefined => simp [Json.truthy] at ht
  | null => simp [Json.truthy] at ht
  | bool b => simp [Json.typeof] at hty
  | num q => simp [Json.typeof] at hty

/-- The mutable bounding-box accumulator `quadData` (find.ts
lines 284-291). -/
structure Box where
  top : ℚ
  bottom : ℚ
  left : ℚ
  right : ℚ
  midLat : ℚ
  midLon : ℚ

/-- The initial bounding box (find.ts lines 284-291). -/
def initBox : Box :=
  { top := 89.9999, bottom := -89.9999, left := -179.9999, right := 179.9999,
    midLat := 0, midLon := 0 }

/-- One quadrant selection (find.ts lines 300-317): compares the point to
the current midpoints, returns the quadrant label and the shrunk box. -/
def quadStep (b : Box) (lat lon : ℚ) : String × Box :=
  if lat ≥ b.midLat ∧ lon ≥ b.midLon then
    ("a", { b with bottom := b.midLat, left := b.midLon })
  else if lat ≥ b.midLat ∧ lon < b.midLon then
    ("b", { b with bottom := b.midLat, right := b.midLon })
  else if lat < b.midLat ∧ lon < b.midLon then
    ("c", { b with top := b.midLat, right := b.midLon })
  else
    ("d", { b with top := b.midLat, left := b.midLon })

/-- Midpoint recomputation before the next descent step (find.ts
lines 369-370). -/
def remid (b : Box) : Box :=
  { b with midLat := (b.top + b.bottom) / 2, midLon := (b.left + b.right) / 2 }

/-- Modelled from the spec: one Ocean Fallback band.  The file
`src/oceanUtils.ts` is imported by find.ts but is not part of the sources
given, so the `OceanZoneTable` is modelled from the spec's data model:
"fixed ordered sequence of id, longitudeLow, longitudeHigh bands covering
international waters".  The field `tzid` keeps the name the source
references (`zone.tzid`, find.ts line 265). -/
structure OceanZone where
  tzid : String
  longitudeLow : ℚ
  longitudeHigh : ℚ

/-- Modelled from the spec: the Ocean Fallback table (`oceanZones` of
`src/oceanUtils.ts`), the standard nautical longitude bands, ordered east
to west, jointly covering [-180, 180]. -/
def oceanZones : List OceanZone :=
  [⟨"Etc/GMT-12", 172.5, 180⟩,
   ⟨"Etc/GMT-11", 157.5, 172.5⟩,
   ⟨"Etc/GMT-10", 142.5, 157.5⟩,
   ⟨"Etc/GMT-9", 127.5, 142.5⟩,
   ⟨"Etc/GMT-8", 112.5, 127.5⟩,
   ⟨"Etc/GMT-7", 97.5, 112.5⟩,
   ⟨"Etc/GMT-6", 82.5, 97.5⟩,
   ⟨"Etc/GMT-5", 67.5, 82.5⟩,
   ⟨"Etc/GMT-4", 52.5, 67.5⟩,
   ⟨"Etc/GMT-3", 37.5, 52.5⟩,
   ⟨"Etc/GMT-2", 22.5, 37.5⟩,
   ⟨"Etc/GMT-1", 7.5, 22.5⟩,
   ⟨"Etc/GMT", -7.5, 7.5⟩,
   ⟨"Etc/GMT+1", -22.5, -7.5⟩,
   ⟨"Etc/GMT+2", -37.5, -22.5⟩,
   ⟨"Etc/GMT+3", -52.5, -37.5⟩,
   ⟨"Etc/GMT+4", -67.5, -52.5⟩,
   ⟨"Etc/GMT+5", -82.5, -67.5⟩,
   ⟨"Etc/GMT+6", -97.5, -82.5⟩,
   ⟨"Etc/GMT+7", -112.5, -97.5⟩,
   ⟨"Etc/GMT+8", -127.5, -112.5⟩,
   ⟨"Etc/GMT+9", -142.5, -127.5⟩,
   ⟨"Etc/GMT+10", -157.5, -142.5⟩,
   ⟨"Etc/GMT+11", -172.5, -157.5⟩,
   ⟨"Etc/GMT+12", -180, -172.5⟩]

/-- Modelled from the spec: `getTimezoneAtSea` of `src/oceanUtils.ts` —
"given the original (unclamped) longitude, returns the id(s) of every
Ocean Zone band whose [longitudeLow, longitudeHigh] range contains it",
preserving table order. -/
def getTimezoneAtSea (lon : ℚ) : List String :=
  (oceanZones.filter (fun z => z.longitudeLow ≤ lon ∧ lon ≤ z.longitudeHigh)).map
    (fun z => z.tzid)

/-- A decoded polygon feature.  The geobuf decoding and the
`@turf/boolean-point-in-polygon` containment test are external
collaborators, so a feature is modelled by its containment predicate over
the (lon, lat) query point, together with its `properties` object:
`none` models an absent (nullish) properties object, `some t` a present
one whose `tzid` value is `t` (with `none` for an absent `tzid`). -/
structure Feature where
  contains : ℚ → ℚ → Bool
  properties : Option (Option String)

/-- The decoded geometry blob (find.ts lines 334-351): a feature
collection, a single feature, or anything else (which matches neither
`type` test and so yields no containing features). -/
inductive GeoJson where
  | featureCollection (features : List Feature)
  | feature (f : Feature)
  | other

/-- The `timezonesContainingPoint` collection loop over a feature list
(find.ts lines 338-346): each feature containing the point with a present
properties object pushes `properties.tzid`, in decode order. -/
def collectFeatures (lon lat : ℚ) : List Feature → List (Option String)
  | [] => []
  | f :: rest =>
    if f.contains lon lat then
      match f.properties with
      | some tz => tz :: collectFeatures lon lat rest
      | none => collectFeatures lon lat rest
    else collectFeatures lon lat rest

/-- The full containment resolution (find.ts lines 336-351), covering the
feature-collection case, the single-feature case and the fall-through. -/
def collectTz (lon lat : ℚ) : GeoJson → List (Option String)
  | .featureCollection fs => collectFeatures lon lat fs
  | .feature f =>
    if f.contains lon lat then
      match f.properties with
      | some tz => [tz]
      | none => []
    else []
  | .other => []

/-- The index document, in the shape the external interface declares:
`lookup` is the untyped quadtree root, `timezones` the ordered id table. -/
structure IndexDoc where
  lookup : Json
  timezones : List String

/-- The external world of one bound instance: what the index provider
resolves to, and what the geometry provider (composed with geobuf
decoding) yields for a requested byte range.  Both are deterministic
oracles; invocations are recorded separately in the call trace. -/
structure Env where
  doc : IndexDoc
  geo : Option ℚ → Option ℚ → GeoJson

/-- Which form `tzDataSource` was bound with (find.ts lines 201-213): a
URL string (wrapped in the memoizing closure) or a raw provider
function (used as-is). -/
inductive TzForm where
  | url
  | func
  deriving DecidableEq

/-- The per-instance mutable state: the `tzDataPromise` memoization slot
of the string-URL closure (find.ts line 199), `none` before the first
fetch. -/
structure InstState where
  tzDataPromise : Option IndexDoc

/-- One call of the bound `tzData` thunk (find.ts lines 201-213, awaited
at line 294): the URL form returns the memoized document when present and
otherwise fetches and memoizes; the function form invokes the provider
every time. -/
def tzFetchStep (env : Env) (form : TzForm) (st : InstState) :
    IndexDoc × InstState × List Call :=
  match form with
  | .func => (env.doc, st, [.tzFetch])
  | .url =>
    match st.tzDataPromise with
    | some d => (d, st, [])
    | none => (env.doc, ⟨some env.doc⟩, [.tzFetch])

/-- The descent loop (find.ts lines 298-371).  Each iteration selects the
quadrant with the old midpoints, shrinks the box, reads the child, and
classifies it: a falsy child delegates to Ocean Fallback with the original
longitude; a child passing the `pos`/`len` guard fetches and resolves its
geometry slice; a child with positive `length` maps its entries through
the timezone table (a TypeError if it is not an array, which has no
`map`); any other non-object child raises `"Unexpected data type"`;
otherwise the loop recomputes the midpoints and descends into the child.
Results are lists of the JavaScript values pushed: `some s` is the string
`s`, `none` is `undefined`. -/
def findLoop (env : Env) (tzs : List String) (lat lon olon : ℚ)
    (cur : Json) (box : Box) :
    Except JsErr (List (Option String)) × List Call :=
  if cur.isNullish = true then
    (.error .typeError, [])
  else
    if h1 : (cur.get (quadStep box lat lon).1).truthy = false then
      (.ok ((getTimezoneAtSea olon).map some), [])
    else
      if (jsGE0 ((cur.get (quadStep box lat lon).1).get "pos") &&
          ((cur.get (quadStep box lat lon).1).get "len").truthy) = true then
        (.ok
          (if (collectTz lon lat
                (env.geo ((cur.get (quadStep box lat lon).1).get "pos").toNum?
                  (jsRangeEnd ((cur.get (quadStep box lat lon).1).get "pos")
                    ((cur.get (quadStep box lat lon).1).get "len")))).length > 0
            then collectTz lon lat
                (env.geo ((cur.get (quadStep box lat lon).1).get "pos").toNum?
                  (jsRangeEnd ((cur.get (quadStep box lat lon).1).get "pos")
                    ((cur.get (quadStep box lat lon).1).get "len")))
            else (getTimezoneAtSea olon).map some),
          [.geoFetch ((cur.get (quadStep box lat lon).1).get "pos").toNum?
            (jsRangeEnd ((cur.get (quadStep box lat lon).1).get "pos")
              ((cur.get (quadStep box lat lon).1).get "len"))])
      else
        if jsGT0 ((cur.get (quadStep box lat lon).1).get "length") = true then
          match cur.get (quadStep box lat lon).1 with
          | .arr elems => (.ok (elems.map (fun idx => jsIndexTz tzs idx)), [])
          | _ => (.error .typeError, [])
        else
          if h4 : (cur.get (quadStep box lat lon).1).typeof ≠ "object" then
            (.error .unexpectedDataType, [])
          else
            findLoop env tzs lat lon olon (cur.get (quadStep box lat lon).1)
              (remid (quadStep box lat lon).2)
termination_by sizeOf cur
decreasing_by
  exact get_truthy_obj_sizeOf cur (quadStep box lat lon).1
    (by revert h1; cases (cur.get (quadStep box lat lon).1).truthy <;> simp)
    (not_not.mp h4)

/-- Latitude clamping (find.ts lines 269-273). -/
def clampLat (q : ℚ) : ℚ :=
  if q ≥ 89.9999 then 89.9999 else if q ≤ -89.9999 then -89.9999 else q

/-- Longitude clamping (find.ts lines 275-279). -/
def clampLon (q : ℚ) : ℚ :=
  if q ≥ 179.9999 then 179.9999 else if q ≤ -179.9999 then -179.9999 else q

/-- JavaScript `x > c` on a possibly-NaN number: false for NaN. -/
def jsnGT (x : JsNum) (c : ℚ) : Bool :=
  match x with
  | none => false
  | some q => decide (q > c)

/-- JavaScript `x < c` on a possibly-NaN number: false for NaN. -/
def jsnLT (x : JsNum) (c : ℚ) : Bool :=
  match x with
  | none => false
  | some q => decide (q < c)

/-- The latitude validation test (find.ts line 252). -/
def badLat (lat : JsNum) : Bool :=
  lat.isNone || jsnGT lat 90 || jsnLT lat (-90)

/-- The longitude validation test (find.ts line 258). -/
def badLon (lon : JsNum) : Bool :=
  lon.isNone || jsnGT lon 180 || jsnLT lon (-180)

/-- The part of `findImpl` after validation and the north-pole special
case (find.ts lines 268-371): clamp, resolve the index document, and run
the descent from the root with the initial box.  `latq`/`olonq` are the
already validated numeric latitude and (original) longitude. -/
def findCore (env : Env) (form : TzForm) (st : InstState) (latq olonq : ℚ) :
    Except JsErr (List (Option String)) × InstState × List Call :=
  ((findLoop env (tzFetchStep env form st).1.timezones (clampLat latq)
      (clampLon olonq) olonq (tzFetchStep env form st).1.lookup initBox).1,
    (tzFetchStep env form st).2.1,
    (tzFetchStep env form st).2.2 ++
      (findLoop env (tzFetchStep env form st).1.timezones (clampLat latq)
        (clampLon olonq) olonq (tzFetchStep env form st).1.lookup initBox).2)

/-- `findImpl` (find.ts lines 241-372): validate the latitude, validate
the longitude, short-circuit the exact north pole to all ocean zones, and
otherwise clamp and descend.  The result triple carries the returned value
or error, the instance state after the call, and the trace of provider
invocations. -/
def findImpl (env : Env) (form : TzForm) (st : InstState) (lat lon : JsNum) :
    Except JsErr (List (Option String)) × InstState × List Call :=
  if badLat lat = true then
    (.error .invalidLatitude, st, [])
  else if badLon lon = true then
    (.error .invalidLongitude, st, [])
  else if lat = some 90 then
    (.ok (oceanZones.map (fun z => some z.tzid)), st, [])
  else
    findCore env form st (lat.getD 0) (lon.getD 0)

/-- A sequence of `find` calls on one bound instance, threading the
memoization state and concatenating the call traces. -/
def runFinds (env : Env) (form : TzForm) (inputs : List (JsNum × JsNum))
    (st : InstState) : InstState × List Call :=
  match inputs with
  | [] => (st, [])
  | (la, lo) :: rest =>
    ((runFinds env form rest (findImpl env form st la lo).2.1).1,
      (findImpl env form st la lo).2.2 ++
        (runFinds env form rest (findImpl env form st la lo).2.1).2)

/-- A well-formed index node, following the spec's four-case data model as
the classification chain of the source reads it: an absent (falsy) child is
Empty; a node passing the `pos`/`len` guard is a GeometryLeaf; a node with
positive `length` is an IdListLeaf and must be an actual array whose
entries are valid indices into the timezone table; any other non-object is
malformed; and an Inner object must have well-formed children at the four
quadrant labels. -/
def wfNode (tzs : List String) (j : Json) : Bool :=
  if h1 : j.truthy = false then true
  else if (jsGE0 (j.get "pos") && (j.get "len").truthy) = true then true
  else if jsGT0 (j.get "length") = true then
    match j with
    | .arr elems => elems.all (fun e => (jsIndexTz tzs e).isSome)
    | _ => false
  else if h4 : j.typeof ≠ "object" then false
  else
    wfNode tzs (j.get "a") && wfNode tzs (j.get "b") &&
      wfNode tzs (j.get "c") && wfNode tzs (j.get "d")
termination_by sizeOf j
decreasing_by
  all_goals
    exact get_child_sizeOf j _
      (by revert h1; cases j.truthy <;> simp)
      (not_not.mp h4) (by decide)

/-- A geometry oracle is well formed when every feature it can decode has
either no properties object or a present `tzid` string, so that resolved
entries are strings. -/
def wfFeature (f : Feature) : Bool :=
  match f.properties with
  | some tz => tz.isSome
  | none => true

/-- Well-formedness of one decoded geometry blob. -/
def wfGeoJson : GeoJson → Bool
  | .featureCollection fs => fs.all wfFeature
  | .feature f => wfFeature f
  | .other => true

/-- A well-formed index document: the root is a truthy object whose four
quadrant children are well-formed nodes. -/
def wfDoc (d : IndexDoc) : Bool :=
  d.lookup.truthy && (d.lookup.typeof == "object") &&
    wfNode d.timezones (d.lookup.get "a") && wfNode d.timezones (d.lookup.get "b") &&
    wfNode d.timezones (d.lookup.get "c") && wfNode d.timezones (d.lookup.get "d")

/-- Indexing a nullish node throws a TypeError. -/
theorem findLoop_nullish (env : Env) (tzs : List String) (lat lon olon : ℚ)
    (cur : Json) (box : Box) (h : cur.isNullish = true) :
    findLoop env tzs lat lon olon cur box = (.error .typeError, []) := by
  rw [findLoop]
  simp [h]

/-- A falsy child terminates the descent into Ocean Fallback on the
original longitude, with no provider call. -/
theorem findLoop_empty (env : Env) (tzs : List String) (lat lon olon : ℚ)
    (cur : Json) (box : Box) (h0 : cur.isNullish = false)
    (h1 : (cur.get (quadStep box lat lon).1).truthy = false) :
    findLoop env tzs lat lon olon cur box =
      (.ok ((getTimezoneAtSea olon).map some), []) := by
  rw [findLoop]
  simp [h0, h1]

/-- A child passing the `pos`/`len` guard resolves its geometry range:
exactly one geometry fetch at the ToNumber'd `pos` and `pos + len - 1`,
returning the containing features' ids, or Ocean Fallback when none
contains the point. -/
theorem findLoop_geom (env : Env) (tzs : List String) (lat lon olon : ℚ)
    (cur : Json) (box : Box) (h0 : cur.isNullish = false)
    (h1 : (cur.get (quadStep box lat lon).1).truthy = true)
    (h2 : (jsGE0 ((cur.get (quadStep box lat lon).1).get "pos") &&
        ((cur.get (quadStep box lat lon).1).get "len").truthy) = true) :
    findLoop env tzs lat lon olon cur box =
      (.ok
        (if (collectTz lon lat
              (env.geo ((cur.get (quadStep box lat lon).1).get "pos").toNum?
                (jsRangeEnd ((cur.get (quadStep box lat lon).1).get "pos")
                  ((cur.get (quadStep box lat lon).1).get "len")))).length > 0
          then collectTz lon lat
              (env.geo ((cur.get (quadStep box lat lon).1).get "pos").toNum?
                (jsRangeEnd ((cur.get (quadStep box lat lon).1).get "pos")
                  ((cur.get (quadStep box lat lon).1).get "len")))
          else (getTimezoneAtSea olon).map some),
        [.geoFetch ((cur.get (quadStep box lat lon).1).get "pos").toNum?
          (jsRangeEnd ((cur.get (quadStep box lat lon).1).get "pos")
            ((cur.get (quadStep box lat lon).1).get "len"))]) := by
  rw [findLoop]
  simp [h0, h1, h2]

/-- A child failing the geometry guard but having positive `length` is
mapped through the timezone table when it is an array. -/
theorem findLoop_idlist (env : Env) (tzs : List String) (lat lon olon : ℚ)
    (cur : Json) (box : Box) (elems : List Json) (h0 : cur.isNullish = false)
    (h1 : (cur.get (quadStep box lat lon).1).truthy = true)
    (h2 : (jsGE0 ((cur.get (quadStep box lat lon).1).get "pos") &&
        ((cur.get (quadStep box lat lon).1).get "len").truthy) = false)
    (h3 : jsGT0 ((cur.get (quadStep box lat lon).1).get "length") = true)
    (harr : cur.get (quadStep box lat lon).1 = .arr elems) :
    findLoop env tzs lat lon olon cur box =
      (.ok (elems.map (fun idx => jsIndexTz tzs idx)), []) := by
  rw [findLoop]
  simp only [harr]
  rw [harr] at h1 h2 h3
  simp [h0, h1, h2, h3, Json.truthy]
  intro hge
  have hpos : jsGE0 ((Json.arr elems).get "pos") = false := rfl
  rw [hpos] at hge
  exact Bool.noConfusion hge

/-- A non-array child with positive `length` has no `map`: a TypeError. -/
theorem findLoop_idlist_nonarr (env : Env) (tzs : List String)
    (lat lon olon : ℚ) (cur : Json) (box : Box) (h0 : cur.isNullish = false)
    (h1 : (cur.get (quadStep box lat lon).1).truthy = true)
    (h2 : (jsGE0 ((cur.get (quadStep box lat lon).1).get "pos") &&
        ((cur.get (quadStep box lat lon).1).get "len").truthy) = false)
    (h3 : jsGT0 ((cur.get (quadStep box lat lon).1).get "length") = true)
    (harr : ∀ elems, cur.get (quadStep box lat lon).1 = Json.arr elems → False) :
    findLoop env tzs lat lon olon cur box = (.error .typeError, []) := by
  rw [findLoop]
  rw [if_neg (by simp [h0])]
  rw [dif_neg (by simp [h1])]
  rw [if_neg (by simp [h2])]
  rw [if_pos h3]
  split
  · next elems heq => exact (harr elems heq).elim
  · rfl

/-- A truthy child that fits none of the three leaf shapes and is not of
object type raises the `"Unexpected data type"` error. -/
theorem findLoop_throw (env : Env) (tzs : List String) (lat lon olon : ℚ)
    (cur : Json) (box : Box) (h0 : cur.isNullish = false)
    (h1 : (cur.get (quadStep box lat lon).1).truthy = true)
    (h2 : (jsGE0 ((cur.get (quadStep box lat lon).1).get "pos") &&
        ((cur.get (quadStep box lat lon).1).get "len").truthy) = false)
    (h3 : jsGT0 ((cur.get (quadStep box lat lon).1).get "length") = false)
    (h4 : (cur.get (quadStep box lat lon).1).typeof ≠ "object") :
    findLoop env tzs lat lon olon cur box = (.error .unexpectedDataType, []) := by
  rw [findLoop]
  simp [h0, h1, h2, h3, h4]

/-- A truthy object child that fits none of the three leaf shapes is an
Inner node: the loop recomputes the midpoints and descends into it. -/
theorem findLoop_inner (env : Env) (tzs : List String) (lat lon olon : ℚ)
    (cur : Json) (box : Box) (h0 : cur.isNullish = false)
    (h1 : (cur.get (quadStep box lat lon).1).truthy = true)
    (h2 : (jsGE0 ((cur.get (quadStep box lat lon).1).get "pos") &&
        ((cur.get (quadStep box lat lon).1).get "len").truthy) = false)
    (h3 : jsGT0 ((cur.get (quadStep box lat lon).1).get "length") = false)
    (h4 : (cur.get (quadStep box lat lon).1).typeof = "object") :
    findLoop env tzs lat lon olon cur box =
      findLoop env tzs lat lon olon (cur.get (quadStep box lat lon).1)
        (remid (quadStep box lat lon).2) := by
  conv_lhs => rw [findLoop]
  simp [h0, h1, h2, h3, h4]

/-- The descent loop never invokes the index provider: its trace holds
geometry fetches only. -/
theorem findLoop_no_tzfetch (env : Env) (tzs : List String) (lat lon olon : ℚ)
    (cur : Json) (box : Box) :
    tzCount (findLoop env tzs lat lon olon cur box).2 = 0 := by
  induction cur, box using findLoop.induct env tzs lat lon olon with
  | case1 cur box h =>
    rw [findLoop_nullish env tzs lat lon olon cur box h]
    rfl
  | case2 cur box h0 h1 =>
    rw [findLoop_empty env tzs lat lon olon cur box (by simpa using h0) h1]
    rfl
  | case3 cur box h0 h1 h2 =>
    rw [findLoop_geom env tzs lat lon olon cur box (by simpa using h0)
      (by simpa using h1) h2]
    rfl
  | case4 cur box h0 h1 h2 h3 elems heq =>
    rw [findLoop_idlist env tzs lat lon olon cur box elems (by simpa using h0)
      (by simpa using h1) (by simpa using h2) h3 heq]
    rfl
  | case5 cur box h0 h1 h2 h3 harr =>
    rw [findLoop_idlist_nonarr env tzs lat lon olon cur box (by simpa using h0)
      (by simpa using h1) (by simpa using h2) h3 harr]
    rfl
  | case6 cur box h0 h1 h2 h3 h4 =>
    rw [findLoop_throw env tzs lat lon olon cur box (by simpa using h0)
      (by simpa using h1) (by simpa using h2) (by simpa using h3) h4]
    rfl
  | case7 cur box h0 h1 h2 h3 h4 ih =>
    rw [findLoop_inner env tzs lat lon olon cur box (by simpa using h0)
      (by simpa using h1) (by simpa using h2) (by simpa using h3)
      (by simpa using h4)]
    exact ih

/-- The errors the descent loop can produce are the TypeError and the
`"Unexpected data type"` error — never a coordinate-validation error. -/
theorem findLoop_err (env : Env) (tzs : List String) (lat lon olon : ℚ)
    (cur : Json) (box : Box) (e : JsErr)
    (he : (findLoop env tzs lat lon olon cur box).1 = .error e) :
    e = .typeError ∨ e = .unexpectedDataType := by
  induction cur, box using findLoop.induct env tzs lat lon olon with
  | case1 cur box h =>
    rw [findLoop_nullish env tzs lat lon olon cur box h] at he
    exact Or.inl (Except.error.inj he).symm
  | case2 cur box h0 h1 =>
    rw [findLoop_empty env tzs lat lon olon cur box (by simpa using h0) h1] at he
    exact Except.noConfusion he
  | case3 cur box h0 h1 h2 =>
    rw [findLoop_geom env tzs lat lon olon cur box (by simpa using h0)
      (by simpa using h1) h2] at he
    exact Except.noConfusion he
  | case4 cur box h0 h1 h2 h3 elems heq =>
    rw [findLoop_idlist env tzs lat lon olon cur box elems (by simpa using h0)
      (by simpa using h1) (by simpa using h2) h3 heq] at he
    exact Except.noConfusion he
  | case5 cur box h0 h1 h2 h3 harr =>
    rw [findLoop_idlist_nonarr env tzs lat lon olon cur box (by simpa using h0)
      (by simpa using h1) (by simpa using h2) h3 harr] at he
    exact Or.inl (Except.error.inj he).symm
  | case6 cur box h0 h1 h2 h3 h4 =>
    rw [findLoop_throw env tzs lat lon olon cur box (by simpa using h0)
      (by simpa using h1) (by simpa using h2) (by simpa using h3) h4] at he
    exact Or.inr (Except.error.inj he).symm
  | case7 cur box h0 h1 h2 h3 h4 ih =>
    rw [findLoop_inner env tzs lat lon olon cur box (by simpa using h0)
      (by simpa using h1) (by simpa using h2) (by simpa using h3)
      (by simpa using h4)] at he
    exact ih he

/-- Modelled from the spec: every longitude in [-180, 180] lies in at
least one Ocean Fallback band, so the fallback result is never empty. -/
theorem sea_mem_exists (lon : ℚ) (hlo : -180 ≤ lon) (hhi : lon ≤ 180) :
    ∃ z, z ∈ oceanZones ∧ z.longitudeLow ≤ lon ∧ lon ≤ z.longitudeHigh := by
  rcases le_total (172.5 : ℚ) lon with hq0 | hq0
  · exact ⟨⟨"Etc/GMT-12", 172.5, 180⟩, by simp [oceanZones], hq0, hhi⟩
  rcases le_total (157.5 : ℚ) lon with hq1 | hq1
  · exact ⟨⟨"Etc/GMT-11", 157.5, 172.5⟩, by simp [oceanZones], hq1, hq0⟩
  rcases le_total (142.5 : ℚ) lon with hq2 | hq2
  · exact ⟨⟨"Etc/GMT-10", 142.5, 157.5⟩, by simp [oceanZones], hq2, hq1⟩
  rcases le_total (127.5 : ℚ) lon with hq3 | hq3
  · exact ⟨⟨"Etc/GMT-9", 127.5, 142.5⟩, by simp [oceanZones], hq3, hq2⟩
  rcases le_total (112.5 : ℚ) lon with hq4 | hq4
  · exact ⟨⟨"Etc/GMT-8", 112.5, 127.5⟩, by simp [oceanZones], hq4, hq3⟩
  rcases le_total (97.5 : ℚ) lon with hq5 | hq5
  · exact ⟨⟨"Etc/GMT-7", 97.5, 112.5⟩, by simp [oceanZones], hq5, hq4⟩
  rcases le_total (82.5 : ℚ) lon with hq6 | hq6
  · exact ⟨⟨"Etc/GMT-6", 82.5, 97.5⟩, by simp [oceanZones], hq6, hq5⟩
  rcases le_total (67.5 : ℚ) lon with hq7 | hq7
  · exact ⟨⟨"Etc/GMT-5", 67.5, 82.5⟩, by simp [oceanZones], hq7, hq6⟩
  rcases le_total (52.5 : ℚ) lon with hq8 | hq8
  · exact ⟨⟨"Etc/GMT-4", 52.5, 67.5⟩, by simp [oceanZones], hq8, hq7⟩
  rcases le_total (37.5 : ℚ) lon with hq9 | hq9
  · exact ⟨⟨"Etc/GMT-3", 37.5, 52.5⟩, by simp [oceanZones], hq9, hq8⟩
  rcases le_total (22.5 : ℚ) lon with hq10 | hq10
  · exact ⟨⟨"Etc/GMT-2", 22.5, 37.5⟩, by simp [oceanZones], hq10, hq9⟩
  rcases le_total (7.5 : ℚ) lon with hq11 | hq11
  · exact ⟨⟨"Etc/GMT-1", 7.5, 22.5⟩, by simp [oceanZones], hq11, hq10⟩
  rcases le_total (-7.5 : ℚ) lon with hq12 | hq12
  · exact ⟨⟨"Etc/GMT", -7.5, 7.5⟩, by simp [oceanZones], hq12, hq11⟩
  rcases le_total (-22.5 : ℚ) lon with hq13 | hq13
  · exact ⟨⟨"Etc/GMT+1", -22.5, -7.5⟩, by simp [oceanZones], hq13, hq12⟩
  rcases le_total (-37.5 : ℚ) lon with hq14 | hq14
  · exact ⟨⟨"Etc/GMT+2", -37.5, -22.5⟩, by simp [oceanZones], hq14, hq13⟩
  rcases le_total (-52.5 : ℚ) lon with hq15 | hq15
  · exact ⟨⟨"Etc/GMT+3", -52.5, -37.5⟩, by simp [oceanZones], hq15, hq14⟩
  rcases le_total (-67.5 : ℚ) lon with hq16 | hq16
  · exact ⟨⟨"Etc/GMT+4", -67.5, -52.5⟩, by simp [oceanZones], hq16, hq15⟩
  rcases le_total (-82.5 : ℚ) lon with hq17 | hq17
  · exact ⟨⟨"Etc/GMT+5", -82.5, -67.5⟩, by simp [oceanZones], hq17, hq16⟩
  rcases le_total (-97.5 : ℚ) lon with hq18 | hq18
  · exact ⟨⟨"Etc/GMT+6", -97.5, -82.5⟩, by simp [oceanZones], hq18, hq17⟩
  rcases le_total (-112.5 : ℚ) lon with hq19 | hq19
  · exact ⟨⟨"Etc/GMT+7", -112.5, -97.5⟩, by simp [oceanZones], hq19, hq18⟩
  rcases le_total (-127.5 : ℚ) lon with hq20 | hq20
  · exact ⟨⟨"Etc/GMT+8", -127.5, -112.5⟩, by simp [oceanZones], hq20, hq19⟩
  rcases le_total (-142.5 : ℚ) lon with hq21 | hq21
  · exact ⟨⟨"Etc/GMT+9", -142.5, -127.5⟩, by simp [oceanZones], hq21, hq20⟩
  rcases le_total (-157.5 : ℚ) lon with hq22 | hq22
  · exact ⟨⟨"Etc/GMT+10", -157.5, -142.5⟩, by simp [oceanZones], hq22, hq21⟩
  rcases le_total (-172.5 : ℚ) lon with hq23 | hq23
  · exact ⟨⟨"Etc/GMT+11", -172.5, -157.5⟩, by simp [oceanZones], hq23, hq22⟩
  exact ⟨⟨"Etc/GMT+12", -180, -172.5⟩, by simp [oceanZones], hlo, hq23⟩

/-- The fallback list for a longitude inside the covered range is
non-empty. -/
theorem sea_nonempty (lon : ℚ) (hlo : -180 ≤ lon) (hhi : lon ≤ 180) :
    getTimezoneAtSea lon ≠ [] := by
  obtain ⟨z, hz, hp1, hp2⟩ := sea_mem_exists lon hlo hhi
  have hmemf : z ∈ oceanZones.filter
      (fun z => decide (z.longitudeLow ≤ lon ∧ lon ≤ z.longitudeHigh)) :=
    List.mem_filter.mpr ⟨hz, by simp [hp1, hp2]⟩
  intro hnil
  rw [getTimezoneAtSea] at hnil
  exact List.ne_nil_of_mem (List.mem_map_of_mem (fun z => z.tzid) hmemf) hnil

/-- The quadrant label is always one of the four letters. -/
theorem quadStep_label (b : Box) (lat lon : ℚ) :
    (quadStep b lat lon).1 = "a" ∨ (quadStep b lat lon).1 = "b" ∨
      (quadStep b lat lon).1 = "c" ∨ (quadStep b lat lon).1 = "d" := by
  unfold quadStep
  split_ifs <;> simp

/-- A truthy value is not nullish. -/
theorem truthy_not_nullish (j : Json) (h : j.truthy = true) :
    j.isNullish = false := by
  cases j <;> simp_all [Json.truthy, Json.isNullish]

/-- A falsy node is well formed (Empty). -/
theorem wfNode_empty (tzs : List String) (j : Json) (h : j.truthy = false) :
    wfNode tzs j = true := by
  rw [wfNode]
  simp [h]

/-- An IdList-shaped node is well formed exactly when it is an array of
valid indices. -/
theorem wfNode_idlist (tzs : List String) (j : Json) (elems : List Json)
    (h1 : j.truthy = true)
    (h2 : (jsGE0 (j.get "pos") && (j.get "len").truthy) = false)
    (h3 : jsGT0 (j.get "length") = true) (harr : j = .arr elems) :
    wfNode tzs j = elems.all (fun e => (jsIndexTz tzs e).isSome) := by
  subst harr
  rw [wfNode]
  rw [dif_neg (by simp [h1])]
  rw [if_neg (by simp [h2])]
  rw [if_pos h3]

/-- An IdList-shaped node that is not an array is malformed. -/
theorem wfNode_idlist_nonarr (tzs : List String) (j : Json)
    (h1 : j.truthy = true)
    (h2 : (jsGE0 (j.get "pos") && (j.get "len").truthy) = false)
    (h3 : jsGT0 (j.get "length") = true)
    (harr : ∀ elems, j = Json.arr elems → False) :
    wfNode tzs j = false := by
  cases j with
  | arr elems => exact (harr elems rfl).elim
  | undefined => simp [Json.truthy] at h1
  | null => simp [Json.truthy] at h1
  | bool b =>
    rw [wfNode, dif_neg (by simp [h1]), if_neg (by simp [h2]), if_pos h3]
  | num q =>
    rw [wfNode, dif_neg (by simp [h1]), if_neg (by simp [h2]), if_pos h3]
  | str t =>
    rw [wfNode, dif_neg (by simp [h1]), if_neg (by simp [h2]), if_pos h3]
  | obj fields =>
    rw [wfNode, dif_neg (by simp [h1]), if_neg (by simp [h2]), if_pos h3]

/-- A truthy non-object node failing the leaf guards is malformed. -/
theorem wfNode_nonobject (tzs : List String) (j : Json)
    (h1 : j.truthy = true)
    (h2 : (jsGE0 (j.get "pos") && (j.get "len").truthy) = false)
    (h3 : jsGT0 (j.get "length") = false)
    (h4 : j.typeof ≠ "object") :
    wfNode tzs j = false := by
  rw [wfNode]
  simp [h1, h2, h3, h4]

/-- An Inner node is well formed exactly when its four children are. -/
theorem wfNode_inner (tzs : List String) (j : Json)
    (h1 : j.truthy = true)
    (h2 : (jsGE0 (j.get "pos") && (j.get "len").truthy) = false)
    (h3 : jsGT0 (j.get "length") = false)
    (h4 : j.typeof = "object") :
    wfNode tzs j =
      (wfNode tzs (j.get "a") && wfNode tzs (j.get "b") &&
        wfNode tzs (j.get "c") && wfNode tzs (j.get "d")) := by
  conv_lhs => rw [wfNode]
  simp [h1, h2, h3, h4]

/-- The selected child of a node whose four quadrant children are well
formed is well formed. -/
theorem wfNode_sel (tzs : List String) (cur : Json) (box : Box) (lat lon : ℚ)
    (ha : wfNode tzs (cur.get "a") = true) (hb : wfNode tzs (cur.get "b") = true)
    (hc : wfNode tzs (cur.get "c") = true) (hd : wfNode tzs (cur.get "d") = true) :
    wfNode tzs (cur.get (quadStep box lat lon).1) = true := by
  rcases quadStep_label box lat lon with h | h | h | h <;> rw [h] <;> assumption

/-- Collected entries from well-formed features are all strings. -/
theorem collectFeatures_all_isSome (lon lat : ℚ) (fs : List Feature)
    (h : fs.all wfFeature = true) :
    (collectFeatures lon lat fs).all Option.isSome = true := by
  induction fs with
  | nil => rfl
  | cons f rest ih =>
    rw [List.all_cons, Bool.and_eq_true] at h
    obtain ⟨hf, hrest⟩ := h
    rw [collectFeatures]
    by_cases hcont : f.contains lon lat = true
    · rw [if_pos hcont]
      cases hprop : f.properties with
      | some tz =>
        rw [wfFeature, hprop] at hf
        have hf' : tz.isSome = true := hf
        simp [List.all_cons, hf', ih hrest]
      | none => exact ih hrest
    · rw [if_neg hcont]
      exact ih hrest

/-- Collected entries from a well-formed geometry blob are all strings. -/
theorem collectTz_all_isSome (lon lat : ℚ) (g : GeoJson)
    (h : wfGeoJson g = true) :
    (collectTz lon lat g).all Option.isSome = true := by
  cases g with
  | featureCollection fs => exact collectFeatures_all_isSome lon lat fs h
  | feature f =>
    rw [collectTz]
    by_cases hcont : f.contains lon lat = true
    · rw [if_pos hcont]
      cases hprop : f.properties with
      | some tz =>
        rw [wfGeoJson, wfFeature, hprop] at h
        have h' : tz.isSome = true := h
        simp [List.all_cons, h']
      | none => rfl
    · rw [if_neg hcont]
      rfl
  | other => rfl

/-- Positive JavaScript `length` of an array means the array is
non-empty. -/
theorem jsGT0_arr_length (elems : List Json)
    (h : jsGT0 ((Json.arr elems).get "length") = true) : elems ≠ [] := by
  cases elems with
  | nil => exact absurd h (by decide)
  | cons a l => exact List.cons_ne_nil a l

/-- Over a well-formed index and geometry oracle, the descent from a
truthy-object node with well-formed quadrant children always returns a
non-empty list whose entries are all strings. -/
theorem findLoop_wf (env : Env) (tzs : List String) (lat lon olon : ℚ)
    (holo : -180 ≤ olon) (hohi : olon ≤ 180)
    (hgeo : ∀ s e, wfGeoJson (env.geo s e) = true) (cur : Json) (box : Box) :
    cur.truthy = true → cur.typeof = "object" →
    wfNode tzs (cur.get "a") = true → wfNode tzs (cur.get "b") = true →
    wfNode tzs (cur.get "c") = true → wfNode tzs (cur.get "d") = true →
    ∃ l, (findLoop env tzs lat lon olon cur box).1 = .ok l ∧ l ≠ [] ∧
      l.all Option.isSome = true := by
  induction cur, box using findLoop.induct env tzs lat lon olon with
  | case1 cur box h =>
    intro ht hty ha hb hc hd
    rw [truthy_not_nullish cur ht] at h
    exact Bool.noConfusion h
  | case2 cur box h0 h1 =>
    intro ht hty ha hb hc hd
    rw [findLoop_empty env tzs lat lon olon cur box (by simpa using h0) h1]
    refine ⟨(getTimezoneAtSea olon).map some, rfl, ?_, ?_⟩
    · simpa using sea_nonempty olon holo hohi
    · simp
  | case3 cur box h0 h1 h2 =>
    intro ht hty ha hb hc hd
    rw [findLoop_geom env tzs lat lon olon cur box (by simpa using h0)
      (by simpa using h1) h2]
    by_cases hlen :
        (collectTz lon lat
          (env.geo ((cur.get (quadStep box lat lon).1).get "pos").toNum?
            (jsRangeEnd ((cur.get (quadStep box lat lon).1).get "pos")
              ((cur.get (quadStep box lat lon).1).get "len")))).length > 0
    · refine ⟨_, by rw [if_pos hlen], ?_, ?_⟩
      · exact List.length_pos.mp hlen
      · exact collectTz_all_isSome lon lat _ (hgeo _ _)
    · refine ⟨_, by rw [if_neg hlen], ?_, ?_⟩
      · simpa using sea_nonempty olon holo hohi
      · simp
  | case4 cur box h0 h1 h2 h3 elems heq =>
    intro ht hty ha hb hc hd
    have hwf := wfNode_sel tzs cur box lat lon ha hb hc hd
    rw [heq] at hwf
    have h1' : (Json.arr elems).truthy = true := by rw [← heq]; simpa using h1
    have h2' : (jsGE0 ((Json.arr elems).get "pos") &&
        ((Json.arr elems).get "len").truthy) = false := by
      rw [← heq]; simpa using h2
    have h3' : jsGT0 ((Json.arr elems).get "length") = true := by
      rw [← heq]; exact h3
    rw [wfNode_idlist tzs _ elems h1' h2' h3' rfl] at hwf
    rw [findLoop_idlist env tzs lat lon olon cur box elems (by simpa using h0)
      (by simpa using h1) (by simpa using h2) h3 heq]
    refine ⟨elems.map (fun idx => jsIndexTz tzs idx), rfl, ?_, ?_⟩
    · have hne := jsGT0_arr_length elems h3'
      simpa using hne
    · rw [List.all_eq_true] at hwf ⊢
      intro x hx
      obtain ⟨e, he, rfl⟩ := List.mem_map.mp hx
      exact hwf e he
  | case5 cur box h0 h1 h2 h3 harr =>
    intro ht hty ha hb hc hd
    have hwf := wfNode_sel tzs cur box lat lon ha hb hc hd
    rw [wfNode_idlist_nonarr tzs _ (by simpa using h1) (by simpa using h2)
      h3 harr] at hwf
    exact Bool.noConfusion hwf
  | case6 cur box h0 h1 h2 h3 h4 =>
    intro ht hty ha hb hc hd
    have hwf := wfNode_sel tzs cur box lat lon ha hb hc hd
    rw [wfNode_nonobject tzs _ (by simpa using h1) (by simpa using h2)
      (by simpa using h3) h4] at hwf
    exact Bool.noConfusion hwf
  | case7 cur box h0 h1 h2 h3 h4 ih =>
    intro ht hty ha hb hc hd
    have hwf := wfNode_sel tzs cur box lat lon ha hb hc hd
    have h1' : (cur.get (quadStep box lat lon).1).truthy = true := by
      simpa using h1
    have h4' : (cur.get (quadStep box lat lon).1).typeof = "object" := by
      simpa using h4
    rw [wfNode_inner tzs _ h1' (by simpa using h2) (by simpa using h3) h4']
      at hwf
    simp only [Bool.and_eq_true] at hwf
    obtain ⟨⟨⟨hwa, hwb⟩, hwc⟩, hwd⟩ := hwf
    rw [findLoop_inner env tzs lat lon olon cur box (by simpa using h0) h1'
      (by simpa using h2) (by simpa using h3) h4']
    exact ih h1' h4' hwa hwb hwc hwd

/-- In-range latitudes pass validation. -/
theorem badLat_false (lat : ℚ) (h1 : -90 ≤ lat) (h2 : lat ≤ 90) :
    badLat (some lat) = false := by
  simp [badLat, jsnGT, jsnLT]
  exact ⟨h2, h1⟩

/-- In-range longitudes pass validation. -/
theorem badLon_false (lon : ℚ) (h1 : -180 ≤ lon) (h2 : lon ≤ 180) :
    badLon (some lon) = false := by
  simp [badLon, jsnGT, jsnLT]
  exact ⟨h2, h1⟩

/-- An invalid latitude fails first, with no provider call and no state
change. -/
theorem findImpl_badLat (env : Env) (form : TzForm) (st : InstState)
    (lat lon : JsNum) (h : badLat lat = true) :
    findImpl env form st lat lon = (.error .invalidLatitude, st, []) := by
  rw [findImpl, if_pos h]

/-- A valid latitude with an invalid longitude fails with the longitude
error, with no provider call and no state change. -/
theorem findImpl_badLon (env : Env) (form : TzForm) (st : InstState)
    (lat lon : JsNum) (hbl : badLat lat = false) (h : badLon lon = true) :
    findImpl env form st lat lon = (.error .invalidLongitude, st, []) := by
  rw [findImpl, if_neg (by simp [hbl]), if_pos h]

/-- Exact latitude 90 short-circuits to all ocean zones, before any
provider call. -/
theorem findImpl_pole (env : Env) (form : TzForm) (st : InstState)
    (lat lon : JsNum) (hbl : badLat lat = false) (hbo : badLon lon = false)
    (hl : lat = some 90) :
    findImpl env form st lat lon =
      (.ok (oceanZones.map (fun z => some z.tzid)), st, []) := by
  rw [findImpl, if_neg (by simp [hbl]), if_neg (by simp [hbo]), if_pos hl]

/-- Away from the exact pole, validated coordinates proceed to the clamped
descent. -/
theorem findImpl_descend (env : Env) (form : TzForm) (st : InstState)
    (lat lon : JsNum) (hbl : badLat lat = false) (hbo : badLon lon = false)
    (hl : lat ≠ some 90) :
    findImpl env form st lat lon =
      findCore env form st (lat.getD 0) (lon.getD 0) := by
  rw [findImpl, if_neg (by simp [hbl]), if_neg (by simp [hbo]), if_neg hl]

/-- The document the bound `tzData` thunk resolves is the environment's
document, whenever the memo slot is unset or holds that document. -/
theorem tzFetchStep_doc (env : Env) (form : TzForm) (st : InstState)
    (hst : st.tzDataPromise = none ∨ st.tzDataPromise = some env.doc) :
    (tzFetchStep env form st).1 = env.doc := by
  cases form with
  | func => rfl
  | url => rcases hst with h | h <;> simp [tzFetchStep, h]

/-- A concrete environment for witnesses: an index whose root is an empty
object (all four children absent) and a geometry oracle that decodes to
nothing. -/
def envA : Env :=
  { doc := { lookup := Json.obj [], timezones := [] },
    geo := fun _ _ => GeoJson.other }

/-- C1: for every non-NaN lat in [-90,90] and non-NaN lon in [-180,180],
`find` terminates (the descent is a total function here) and — over a
well-formed index document and geometry oracle — returns a non-empty
ordered list of strings. -/
theorem C1_terminates_nonempty (env : Env) (form : TzForm) (st : InstState)
    (lat lon : ℚ)
    (hlat1 : -90 ≤ lat) (hlat2 : lat ≤ 90)
    (hlon1 : -180 ≤ lon) (hlon2 : lon ≤ 180)
    (hst : st.tzDataPromise = none ∨ st.tzDataPromise = some env.doc)
    (hdoc : wfDoc env.doc = true)
    (hgeo : ∀ s e, wfGeoJson (env.geo s e) = true) :
    ∃ l, (findImpl env form st (some lat) (some lon)).1 = .ok l ∧ l ≠ [] ∧
      l.all Option.isSome = true := by
  have hbl : badLat (some lat) = false := badLat_false lat hlat1 hlat2
  have hbo : badLon (some lon) = false := badLon_false lon hlon1 hlon2
  by_cases hl90 : lat = 90
  · rw [findImpl_pole env form st (some lat) (some lon) hbl hbo
      (by rw [hl90])]
    exact ⟨oceanZones.map (fun z => some z.tzid), rfl, by decide, by decide⟩
  · rw [findImpl_descend env form st (some lat) (some lon) hbl hbo
      (by simpa using hl90)]
    rw [findCore]
    rw [wfDoc, Bool.and_eq_true, Bool.and_eq_true, Bool.and_eq_true,
      Bool.and_eq_true, Bool.and_eq_true] at hdoc
    obtain ⟨⟨⟨⟨⟨htr, hty⟩, hwa⟩, hwb⟩, hwc⟩, hwd⟩ := hdoc
    have hdoceq := tzFetchStep_doc env form st hst
    rw [hdoceq]
    exact findLoop_wf env env.doc.timezones (clampLat (Option.getD (some lat) 0))
      (clampLon (Option.getD (some lon) 0)) (Option.getD (some lon) 0)
      (by simpa using hlon1) (by simpa using hlon2) hgeo env.doc.lookup initBox
      htr (by simpa using hty) hwa hwb hwc hwd

/-- Witness for C1: a concrete valid coordinate over a concrete well-formed
environment. -/
theorem C1_terminates_nonempty_witness :
    ∃ l, (findImpl envA .func ⟨none⟩ (some 0) (some 0)).1 = .ok l ∧ l ≠ [] ∧
      l.all Option.isSome = true := by
  have hund : wfNode ([] : List String) Json.undefined = true := wfNode_empty _ _ rfl
  exact C1_terminates_nonempty envA .func ⟨none⟩ 0 0 (by norm_num) (by norm_num)
    (by norm_num) (by norm_num) (Or.inl rfl)
    (by simp [wfDoc, envA, Json.truthy, Json.typeof, Json.get, List.find?, hund])
    (fun s e => rfl)

/-- The spec's wording of an invalid latitude: NaN or outside [-90, 90]. -/
def invalidLatProp (lat : JsNum) : Prop :=
  lat = none ∨ ∃ q, lat = some q ∧ (90 < q ∨ q < -90)

/-- The spec's wording of an invalid longitude: NaN or outside
[-180, 180]. -/
def invalidLonProp (lon : JsNum) : Prop :=
  lon = none ∨ ∃ q, lon = some q ∧ (180 < q ∨ q < -180)

/-- The source's latitude test agrees with the spec's wording. -/
theorem badLat_iff (lat : JsNum) : badLat lat = true ↔ invalidLatProp lat := by
  cases lat <;> simp [badLat, jsnGT, jsnLT, invalidLatProp]

/-- The source's longitude test agrees with the spec's wording. -/
theorem badLon_iff (lon : JsNum) : badLon lon = true ↔ invalidLonProp lon := by
  cases lon <;> simp [badLon, jsnGT, jsnLT, invalidLonProp]

/-- C2: `find` fails with `InvalidCoordinate` exactly when the latitude is
NaN or outside [-90,90], or the longitude is NaN or outside [-180,180];
and on such input the state is unchanged and the call trace is empty — no
provider is ever invoked. -/
theorem C2_invalid_coordinate (env : Env) (form : TzForm) (st : InstState)
    (lat lon : JsNum) :
    ((∃ e, (findImpl env form st lat lon).1 = .error e ∧
        e.isInvalidCoordinate = true) ↔
      (invalidLatProp lat ∨ invalidLonProp lon)) ∧
    ((invalidLatProp lat ∨ invalidLonProp lon) →
      (findImpl env form st lat lon).2.1 = st ∧
        (findImpl env form st lat lon).2.2 = []) := by
  by_cases hbl : badLat lat = true
  · rw [findImpl_badLat env form st lat lon hbl]
    refine ⟨⟨fun _ => Or.inl ((badLat_iff lat).mp hbl),
      fun _ => ⟨.invalidLatitude, rfl, rfl⟩⟩, fun _ => ⟨rfl, rfl⟩⟩
  · have hbl' : badLat lat = false := by simpa using hbl
    by_cases hbo : badLon lon = true
    · rw [findImpl_badLon env form st lat lon hbl' hbo]
      refine ⟨⟨fun _ => Or.inr ((badLon_iff lon).mp hbo),
        fun _ => ⟨.invalidLongitude, rfl, rfl⟩⟩, fun _ => ⟨rfl, rfl⟩⟩
    · have hbo' : badLon lon = false := by simpa using hbo
      have hnv : ¬(invalidLatProp lat ∨ invalidLonProp lon) := by
        rintro (h | h)
        · exact hbl ((badLat_iff lat).mpr h)
        · exact hbo ((badLon_iff lon).mpr h)
      refine ⟨⟨?_, fun h => absurd h hnv⟩, fun h => absurd h hnv⟩
      rintro ⟨e, he, hinv⟩
      exfalso
      by_cases hl90 : lat = some 90
      · rw [findImpl_pole env form st lat lon hbl' hbo' hl90] at he
        exact Except.noConfusion he
      · rw [findImpl_descend env form st lat lon hbl' hbo' hl90] at he
        rw [findCore] at he
        rcases findLoop_err env (tzFetchStep env form st).1.timezones
            (clampLat (lat.getD 0)) (clampLon (lon.getD 0)) (lon.getD 0)
            (tzFetchStep env form st).1.lookup initBox e he with h | h <;>
          rw [h] at hinv <;> exact Bool.noConfusion hinv

/-- Witness for C2: latitude 91 fails with `InvalidCoordinate` and
performs no I/O. -/
theorem C2_invalid_coordinate_witness :
    (∃ e, (findImpl envA .func ⟨none⟩ (some 91) (some 0)).1 = .error e ∧
        e.isInvalidCoordinate = true) ∧
      (findImpl envA .func ⟨none⟩ (some 91) (some 0)).2.2 = [] := by
  have h := C2_invalid_coordinate envA .func ⟨none⟩ (some 91) (some 0)
  have hbad : invalidLatProp (some 91) ∨ invalidLonProp (some 0) :=
    Or.inl (Or.inr ⟨91, rfl, Or.inl (by norm_num)⟩)
  exact ⟨h.1.mpr hbad, (h.2 hbad).2⟩

/-- C3: `find(90, x)` returns every Ocean Fallback id, in table order, with
no provider call and no state change; the right-hand side does not depend
on `x`, so the result is identical across longitudes. -/
theorem C3_north_pole (env : Env) (form : TzForm) (st : InstState) (lon : ℚ)
    (h1 : -180 ≤ lon) (h2 : lon ≤ 180) :
    findImpl env form st (some 90) (some lon) =
      (.ok (oceanZones.map (fun z => some z.tzid)), st, []) :=
  findImpl_pole env form st (some 90) (some lon)
    (badLat_false 90 (by norm_num) le_rfl) (badLon_false lon h1 h2) rfl

/-- Witness for C3: the pole at longitude 0 yields all 25 ocean zone ids
with an empty trace. -/
theorem C3_north_pole_witness :
    findImpl envA .func ⟨none⟩ (some 90) (some 0) =
      (.ok (oceanZones.map (fun z => some z.tzid)), ⟨none⟩, []) :=
  C3_north_pole envA .func ⟨none⟩ 0 (by norm_num) (by norm_num)

/-- C4: the two "no precise match" outcomes are not errors.  An Empty
(falsy) child returns the Ocean Fallback of the original longitude with no
further I/O; a resolved GeometryLeaf whose decoded features contain the
point zero times returns the same fallback; and end to end, the fallback
is computed from the original, unclamped longitude (third conjunct, where
the longitude passed to `findImpl` reappears unclamped in the result). -/
theorem C4_no_match_is_fallback (env : Env) (st : InstState)
    (tzs : List String) (lat lon olon : ℚ) (cur : Json) (box : Box)
    (lonq : ℚ) (hlo : -180 ≤ lonq) (hhi : lonq ≤ 180) :
    (cur.isNullish = false →
      (cur.get (quadStep box lat lon).1).truthy = false →
      findLoop env tzs lat lon olon cur box =
        (.ok ((getTimezoneAtSea olon).map some), [])) ∧
    (cur.isNullish = false →
      (cur.get (quadStep box lat lon).1).truthy = true →
      (jsGE0 ((cur.get (quadStep box lat lon).1).get "pos") &&
        ((cur.get (quadStep box lat lon).1).get "len").truthy) = true →
      collectTz lon lat
          (env.geo ((cur.get (quadStep box lat lon).1).get "pos").toNum?
            (jsRangeEnd ((cur.get (quadStep box lat lon).1).get "pos")
              ((cur.get (quadStep box lat lon).1).get "len"))) = [] →
      findLoop env tzs lat lon olon cur box =
        (.ok ((getTimezoneAtSea olon).map some),
          [.geoFetch ((cur.get (quadStep box lat lon).1).get "pos").toNum?
            (jsRangeEnd ((cur.get (quadStep box lat lon).1).get "pos")
              ((cur.get (quadStep box lat lon).1).get "len"))])) ∧
    (env.doc.lookup = Json.obj [] →
      findImpl env .func st (some 0) (some lonq) =
        (.ok ((getTimezoneAtSea lonq).map some), st, [.tzFetch])) := by
  refine ⟨?_, ?_, ?_⟩
  · intro h0 h1
    exact findLoop_empty env tzs lat lon olon cur box h0 h1
  · intro h0 h1 h2 hc
    rw [findLoop_geom env tzs lat lon olon cur box h0 h1 h2]
    rw [hc]
    simp
  · intro hroot
    rw [findImpl_descend env .func st (some 0) (some lonq)
      (badLat_false 0 (by norm_num) (by norm_num))
      (badLon_false lonq hlo hhi) (by simp)]
    rw [findCore]
    have hloop : findLoop env env.doc.timezones (clampLat ((some (0:ℚ)).getD 0))
        (clampLon ((some lonq).getD 0)) ((some lonq).getD 0) env.doc.lookup
        initBox = (.ok ((getTimezoneAtSea lonq).map some), []) := by
      rw [hroot]
      exact findLoop_empty env env.doc.timezones _ _ _ _ _ rfl rfl
    show ((findLoop env env.doc.timezones (clampLat ((some (0:ℚ)).getD 0))
        (clampLon ((some lonq).getD 0)) ((some lonq).getD 0) env.doc.lookup
        initBox).1, st,
        [Call.tzFetch] ++ (findLoop env env.doc.timezones
          (clampLat ((some (0:ℚ)).getD 0)) (clampLon ((some lonq).getD 0))
          ((some lonq).getD 0) env.doc.lookup initBox).2) =
      (Except.ok ((getTimezoneAtSea lonq).map some), st, [Call.tzFetch])
    rw [hloop]
    rfl

/-- Witness for C4: an index with an empty-object root falls back to the
ocean band of the original longitude 180 (which would clamp to 179.9999
for the descent) without any error. -/
theorem C4_no_match_is_fallback_witness :
    findImpl envA .func ⟨none⟩ (some 0) (some 180) =
      (.ok ((getTimezoneAtSea 180).map some), ⟨none⟩, [.tzFetch]) :=
  (C4_no_match_is_fallback envA ⟨none⟩ [] 0 0 0 Json.undefined initBox 180
    (by norm_num) (by norm_num)).2.2 rfl

/-- A concrete environment whose index root has an empty array at child
"a".  An empty array is none of the spec's four node kinds (an IdListLeaf
is non-empty), yet the code treats it as an Inner node. -/
def envB : Env :=
  { doc := { lookup := Json.obj [("a", Json.arr [])], timezones := [] },
    geo := fun _ _ => GeoJson.other }

/-- Counterexample for C5: descending into an empty-array node — which is
neither Inner, GeometryLeaf, IdListLeaf, nor Empty — does not fail with
`MalformedIndex`: the code recurses into it as if Inner, finds no child,
and returns the ocean fallback.  There is also no depth ceiling anywhere
in the loop. -/
theorem C5_counterexample :
    (findImpl envB .func ⟨none⟩ (some 0) (some 0)).1 =
      .ok [some "Etc/GMT"] := by
  have step1 : findLoop envB [] (clampLat ((some (0:ℚ)).getD 0))
      (clampLon ((some (0:ℚ)).getD 0)) ((some (0:ℚ)).getD 0)
      envB.doc.lookup initBox =
      findLoop envB [] (clampLat ((some (0:ℚ)).getD 0))
        (clampLon ((some (0:ℚ)).getD 0)) ((some (0:ℚ)).getD 0) (Json.arr [])
        (remid (quadStep initBox (clampLat ((some (0:ℚ)).getD 0))
          (clampLon ((some (0:ℚ)).getD 0))).2) := by
    have h := findLoop_inner envB [] (clampLat ((some (0:ℚ)).getD 0))
      (clampLon ((some (0:ℚ)).getD 0)) ((some (0:ℚ)).getD 0)
      envB.doc.lookup initBox (by with_unfolding_all decide)
      (by with_unfolding_all decide) (by with_unfolding_all decide)
      (by with_unfolding_all decide) (by with_unfolding_all decide)
    rw [h]
    with_unfolding_all rfl
  have step2 : findLoop envB [] (clampLat ((some (0:ℚ)).getD 0))
      (clampLon ((some (0:ℚ)).getD 0)) ((some (0:ℚ)).getD 0) (Json.arr [])
      (remid (quadStep initBox (clampLat ((some (0:ℚ)).getD 0))
        (clampLon ((some (0:ℚ)).getD 0))).2) =
      (.ok [some "Etc/GMT"], []) := by
    have h := findLoop_empty envB [] (clampLat ((some (0:ℚ)).getD 0))
      (clampLon ((some (0:ℚ)).getD 0)) ((some (0:ℚ)).getD 0) (Json.arr [])
      (remid (quadStep initBox (clampLat ((some (0:ℚ)).getD 0))
        (clampLon ((some (0:ℚ)).getD 0))).2) (by with_unfolding_all decide)
      (by with_unfolding_all decide)
    rw [h]
    with_unfolding_all rfl
  rw [findImpl_descend envB .func ⟨none⟩ (some 0) (some 0)
    (by with_unfolding_all decide) (by with_unfolding_all decide)
    (by with_unfolding_all decide)]
  rw [findCore]
  show (findLoop envB [] (clampLat ((some (0:ℚ)).getD 0))
      (clampLon ((some (0:ℚ)).getD 0)) ((some (0:ℚ)).getD 0)
      envB.doc.lookup initBox).1 = Except.ok [some "Etc/GMT"]
  rw [step1, step2]

/-- The descent from a node, with the given query point, reaches a child
of the malformed shape: truthy, failing the `pos`/`len` geometry guard,
without positive `length`, and not of object type.  The `there` step
follows the loop's Inner branch, so this is exactly the reachability of
the `"Unexpected data type"` throw. -/
inductive ReachesMalformed (lat lon : ℚ) : Json → Box → Prop where
  | here (cur : Json) (box : Box) :
      cur.isNullish = false →
      (cur.get (quadStep box lat lon).1).truthy = true →
      (jsGE0 ((cur.get (quadStep box lat lon).1).get "pos") &&
        ((cur.get (quadStep box lat lon).1).get "len").truthy) = false →
      jsGT0 ((cur.get (quadStep box lat lon).1).get "length") = false →
      (cur.get (quadStep box lat lon).1).typeof ≠ "object" →
      ReachesMalformed lat lon cur box
  | there (cur : Json) (box : Box) :
      cur.isNullish = false →
      (cur.get (quadStep box lat lon).1).truthy = true →
      (jsGE0 ((cur.get (quadStep box lat lon).1).get "pos") &&
        ((cur.get (quadStep box lat lon).1).get "len").truthy) = false →
      jsGT0 ((cur.get (quadStep box lat lon).1).get "length") = false →
      (cur.get (quadStep box lat lon).1).typeof = "object" →
      ReachesMalformed lat lon (cur.get (quadStep box lat lon).1)
        (remid (quadStep box lat lon).2) →
      ReachesMalformed lat lon cur box

/-- C5 as amended: the `"Unexpected data type"` error (`MalformedIndex`)
is raised exactly when the descent reaches a child that is truthy, fails
the `pos`/`len` geometry guard, has no positive `length`, and is not of
object type.  Values outside the spec's four node kinds need not raise
it: an empty array is traversed as an Inner node into ocean fallback
(the counterexample), and a non-array child with positive `length`
raises a TypeError instead; no depth ceiling exists. -/
theorem C5_amended_malformed_iff (env : Env) (tzs : List String)
    (lat lon olon : ℚ) (cur : Json) (box : Box) :
    (findLoop env tzs lat lon olon cur box).1 =
        .error .unexpectedDataType ↔
      ReachesMalformed lat lon cur box := by
  constructor
  · induction cur, box using findLoop.induct env tzs lat lon olon with
    | case1 cur box h =>
      intro he
      rw [findLoop_nullish env tzs lat lon olon cur box h] at he
      exact absurd (Except.error.inj he) (by decide)
    | case2 cur box h0 h1 =>
      intro he
      rw [findLoop_empty env tzs lat lon olon cur box (by simpa using h0)
        h1] at he
      exact Except.noConfusion he
    | case3 cur box h0 h1 h2 =>
      intro he
      rw [findLoop_geom env tzs lat lon olon cur box (by simpa using h0)
        (by simpa using h1) h2] at he
      exact Except.noConfusion he
    | case4 cur box h0 h1 h2 h3 elems heq =>
      intro he
      rw [findLoop_idlist env tzs lat lon olon cur box elems
        (by simpa using h0) (by simpa using h1) (by simpa using h2) h3
        heq] at he
      exact Except.noConfusion he
    | case5 cur box h0 h1 h2 h3 harr =>
      intro he
      rw [findLoop_idlist_nonarr env tzs lat lon olon cur box
        (by simpa using h0) (by simpa using h1) (by simpa using h2) h3
        harr] at he
      exact absurd (Except.error.inj he) (by decide)
    | case6 cur box h0 h1 h2 h3 h4 =>
      intro _
      exact ReachesMalformed.here cur box (by simpa using h0)
        (by simpa using h1) (by simpa using h2) (by simpa using h3) h4
    | case7 cur box h0 h1 h2 h3 h4 ih =>
      intro he
      rw [findLoop_inner env tzs lat lon olon cur box (by simpa using h0)
        (by simpa using h1) (by simpa using h2) (by simpa using h3)
        (by simpa using h4)] at he
      exact ReachesMalformed.there cur box (by simpa using h0)
        (by simpa using h1) (by simpa using h2) (by simpa using h3)
        (by simpa using h4) (ih he)
  · intro hr
    induction hr with
    | here cur box h0 h1 h2 h3 h4 =>
      rw [findLoop_throw env tzs lat lon olon cur box h0 h1 h2 h3 h4]
    | there cur box h0 h1 h2 h3 h4 hr ih =>
      rw [findLoop_inner env tzs lat lon olon cur box h0 h1 h2 h3 h4]
      exact ih

/-- Witness for the amended C5: a numeric child is reached immediately
and raises the error; conversely the error implies such a child was
reached. -/
theorem C5_amended_malformed_iff_witness :
    (findLoop envA [] 0 0 0 (Json.obj [("a", Json.num 5)]) initBox).1 =
      .error .unexpectedDataType :=
  (C5_amended_malformed_iff envA [] 0 0 0
    (Json.obj [("a", Json.num 5)]) initBox).mpr
    (ReachesMalformed.here _ _ rfl rfl rfl rfl (by decide))

/-- Traces concatenate, so index-fetch counts add. -/
theorem tzCount_append (a b : List Call) :
    tzCount (a ++ b) = tzCount a + tzCount b :=
  List.countP_append _ _ _

/-- A function-form instance whose index root is an empty object resolves
any valid longitude at latitude 0 to the ocean fallback, invoking the
index provider exactly once per call. -/
theorem findImpl_func_emptyRoot (env : Env) (st : InstState) (lonq : ℚ)
    (hlo : -180 ≤ lonq) (hhi : lonq ≤ 180)
    (hroot : env.doc.lookup = Json.obj []) :
    findImpl env .func st (some 0) (some lonq) =
      (.ok ((getTimezoneAtSea lonq).map some), st, [.tzFetch]) := by
  rw [findImpl_descend env .func st (some 0) (some lonq)
    (badLat_false 0 (by norm_num) (by norm_num))
    (badLon_false lonq hlo hhi) (by simp)]
  rw [findCore]
  have hloop : findLoop env env.doc.timezones (clampLat ((some (0:ℚ)).getD 0))
      (clampLon ((some lonq).getD 0)) ((some lonq).getD 0) env.doc.lookup
      initBox = (.ok ((getTimezoneAtSea lonq).map some), []) := by
    rw [hroot]
    exact findLoop_empty env env.doc.timezones _ _ _ _ _ rfl rfl
  show ((findLoop env env.doc.timezones (clampLat ((some (0:ℚ)).getD 0))
      (clampLon ((some lonq).getD 0)) ((some lonq).getD 0) env.doc.lookup
      initBox).1, st,
      [Call.tzFetch] ++ (findLoop env env.doc.timezones
        (clampLat ((some (0:ℚ)).getD 0)) (clampLon ((some lonq).getD 0))
        ((some lonq).getD 0) env.doc.lookup initBox).2) =
    (Except.ok ((getTimezoneAtSea lonq).map some), st, [Call.tzFetch])
  rw [hloop]
  rfl

/-- Potential argument for URL-form memoization: one `find` call spends an
index fetch only by filling the memo slot. -/
theorem findImpl_url_potential (env : Env) (st : InstState) (lat lon : JsNum) :
    tzCount (findImpl env .url st lat lon).2.2 +
      (if (findImpl env .url st lat lon).2.1.tzDataPromise.isSome then 0 else 1) ≤
      (if st.tzDataPromise.isSome then 0 else 1) := by
  by_cases hbl : badLat lat = true
  · rw [findImpl_badLat env .url st lat lon hbl]
    simp [tzCount]
  · have hbl' : badLat lat = false := by simpa using hbl
    by_cases hbo : badLon lon = true
    · rw [findImpl_badLon env .url st lat lon hbl' hbo]
      simp [tzCount]
    · have hbo' : badLon lon = false := by simpa using hbo
      by_cases hl90 : lat = some 90
      · rw [findImpl_pole env .url st lat lon hbl' hbo' hl90]
        simp [tzCount]
      · rw [findImpl_descend env .url st lat lon hbl' hbo' hl90]
        rw [findCore]
        cases hmemo : st.tzDataPromise with
        | some d =>
          have ht : tzFetchStep env .url st = (d, st, []) := by
            simp [tzFetchStep, hmemo]
          rw [ht]
          simp only [List.nil_append]
          rw [findLoop_no_tzfetch]
          simp [hmemo]
        | none =>
          have ht : tzFetchStep env .url st =
              (env.doc, ⟨some env.doc⟩, [.tzFetch]) := by
            simp [tzFetchStep, hmemo]
          rw [ht]
          rw [tzCount_append]
          rw [findLoop_no_tzfetch]
          simp [hmemo, tzCount]

/-- The potential argument lifted to a whole sequence of calls. -/
theorem runFinds_url_potential (env : Env) (inputs : List (JsNum × JsNum)) :
    ∀ st : InstState,
      tzCount (runFinds env .url inputs st).2 +
        (if (runFinds env .url inputs st).1.tzDataPromise.isSome then 0 else 1) ≤
        (if st.tzDataPromise.isSome then 0 else 1) := by
  induction inputs with
  | nil =>
    intro st
    simp [runFinds, tzCount]
  | cons p rest ih =>
    intro st
    obtain ⟨la, lo⟩ := p
    simp only [runFinds]
    rw [tzCount_append]
    have h1 := findImpl_url_potential env st la lo
    have h2 := ih (findImpl env .url st la lo).2.1
    omega

/-- C6 as amended: for the string-URL form of `tzDataSource`, the index
provider is invoked at most once across any number of sequential `find`
calls on a bound instance started with an empty memo slot. -/
theorem C6_amended_url_single_fetch (env : Env)
    (inputs : List (JsNum × JsNum)) :
    tzCount (runFinds env .url inputs ⟨none⟩).2 ≤ 1 := by
  have h := runFinds_url_potential env inputs ⟨none⟩
  simp at h
  omega

/-- Counterexample for C6: with the function form of `tzDataSource`, two
sequential `find` calls invoke the index provider twice — the memoization
claimed for both forms holds only for the string-URL form. -/
theorem C6_counterexample :
    tzCount (runFinds envA .func
      [((some 0 : JsNum), (some 0 : JsNum)),
        ((some 0 : JsNum), (some 0 : JsNum))] ⟨none⟩).2 = 2 := by
  have h := findImpl_func_emptyRoot envA ⟨none⟩ 0 (by norm_num) (by norm_num)
    rfl
  simp only [runFinds]
  rw [h]
  with_unfolding_all change (tzCount
    (((Except.ok ((getTimezoneAtSea (0:ℚ)).map some) :
        Except JsErr (List (Option String))),
      (⟨none⟩ : InstState), [Call.tzFetch]).2.2 ++
      ((findImpl envA .func (⟨none⟩ : InstState) (some 0) (some 0)).2.2 ++ []))
    = 2)
  rw [h]
  rfl

/-- A concrete environment whose index immediately yields a GeometryLeaf
at byte range [0, 3], and whose geometry decodes to a single feature that
contains every point and has a properties object with no `tzid`. -/
def envC : Env :=
  { doc := { lookup := Json.obj [("a",
      Json.obj [("pos", Json.num 0), ("len", Json.num 4)])], timezones := [] },
    geo := fun _ _ =>
      GeoJson.featureCollection [⟨fun _ _ => true, some none⟩] }

/-- Counterexample for C7: a containing feature whose properties object is
present but lacks `tzid` is not skipped — `properties.tzid` (undefined,
modelled as `none`) is pushed, so `find` returns a one-element list whose
entry is not a string, instead of contributing nothing. -/
theorem C7_counterexample :
    (findImpl envC .func ⟨none⟩ (some 0) (some 0)).1 = .ok [none] := by
  have hstep := findLoop_geom envC [] (clampLat ((some (0:ℚ)).getD 0))
    (clampLon ((some (0:ℚ)).getD 0)) ((some (0:ℚ)).getD 0) envC.doc.lookup
    initBox (by with_unfolding_all decide) (by with_unfolding_all decide)
    (by with_unfolding_all decide)
  rw [findImpl_descend envC .func ⟨none⟩ (some 0) (some 0)
    (by with_unfolding_all decide) (by with_unfolding_all decide)
    (by with_unfolding_all decide)]
  rw [findCore]
  show (findLoop envC [] (clampLat ((some (0:ℚ)).getD 0))
      (clampLon ((some (0:ℚ)).getD 0)) ((some (0:ℚ)).getD 0) envC.doc.lookup
      initBox).1 = Except.ok [none]
  rw [hstep]
  with_unfolding_all rfl

/-- C7 as amended: the containment resolution returns, in decode order,
`properties.tzid` of every feature that contains the point and has a
present properties object; a feature with an absent properties object is
skipped; a present properties object lacking `tzid` contributes the
undefined value (`none`) to the result.  The single-feature decode shape
behaves as a one-element collection. -/
theorem C7_amended_collect (lon lat : ℚ) (fs : List Feature) (f : Feature) :
    collectFeatures lon lat fs =
      (fs.filter (fun g => g.contains lon lat)).filterMap
        (fun g => g.properties) ∧
    collectTz lon lat (.featureCollection fs) = collectFeatures lon lat fs ∧
    collectTz lon lat (.feature f) = collectFeatures lon lat [f] := by
  refine ⟨?_, rfl, ?_⟩
  · induction fs with
    | nil => rfl
    | cons g rest ih =>
      rw [collectFeatures]
      by_cases hc : g.contains lon lat = true
      · cases hp : g.properties with
        | some tz => simp [List.filter_cons, List.filterMap_cons, hc, hp, ih]
        | none => simp [List.filter_cons, List.filterMap_cons, hc, hp, ih]
      · have hc' : g.contains lon lat = false := by simpa using hc
        simp [List.filter_cons, hc', ih]
  · cases hp : f.properties with
    | some tz =>
      by_cases hc : f.contains lon lat = true <;>
        simp [collectTz, collectFeatures, hc, hp]
    | none =>
      by_cases hc : f.contains lon lat = true <;>
        simp [collectTz, collectFeatures, hc, hp]

/-- C8: the quadrant selection and box updates follow the four-case rule
exactly — with the old midpoints — and continuing into an Inner node
recomputes the midpoints of the shrunk box before descending. -/
theorem C8_quadrant_rule (b : Box) (lat lon : ℚ) :
    (lat ≥ b.midLat → lon ≥ b.midLon →
      quadStep b lat lon =
        ("a", { b with bottom := b.midLat, left := b.midLon })) ∧
    (lat ≥ b.midLat → lon < b.midLon →
      quadStep b lat lon =
        ("b", { b with bottom := b.midLat, right := b.midLon })) ∧
    (lat < b.midLat → lon < b.midLon →
      quadStep b lat lon =
        ("c", { b with top := b.midLat, right := b.midLon })) ∧
    (lat < b.midLat → lon ≥ b.midLon →
      quadStep b lat lon =
        ("d", { b with top := b.midLat, left := b.midLon })) ∧
    (remid (quadStep b lat lon).2 =
      { (quadStep b lat lon).2 with
          midLat := ((quadStep b lat lon).2.top + (quadStep b lat lon).2.bottom) / 2,
          midLon := ((quadStep b lat lon).2.left + (quadStep b lat lon).2.right) / 2 }) ∧
    (∀ (env : Env) (tzs : List String) (olon : ℚ) (cur : Json),
      cur.isNullish = false →
      (cur.get (quadStep b lat lon).1).truthy = true →
      (jsGE0 ((cur.get (quadStep b lat lon).1).get "pos") &&
        ((cur.get (quadStep b lat lon).1).get "len").truthy) = false →
      jsGT0 ((cur.get (quadStep b lat lon).1).get "length") = false →
      (cur.get (quadStep b lat lon).1).typeof = "object" →
      findLoop env tzs lat lon olon cur b =
        findLoop env tzs lat lon olon (cur.get (quadStep b lat lon).1)
          (remid (quadStep b lat lon).2)) := by
  refine ⟨?_, ?_, ?_, ?_, rfl, ?_⟩
  · intro h1 h2
    rw [quadStep, if_pos ⟨h1, h2⟩]
  · intro h1 h2
    rw [quadStep, if_neg (by rintro ⟨-, hx⟩; exact absurd hx (not_le.mpr h2)),
      if_pos ⟨h1, h2⟩]
  · intro h1 h2
    rw [quadStep, if_neg (by rintro ⟨hx, -⟩; exact absurd hx (not_le.mpr h1)),
      if_neg (by rintro ⟨hx, -⟩; exact absurd hx (not_le.mpr h1)),
      if_pos ⟨h1, h2⟩]
  · intro h1 h2
    rw [quadStep, if_neg (by rintro ⟨hx, -⟩; exact absurd hx (not_le.mpr h1)),
      if_neg (by rintro ⟨hx, -⟩; exact absurd hx (not_le.mpr h1)),
      if_neg (by rintro ⟨-, hx⟩; exact absurd hx (not_lt.mpr h2))]
  · intro env tzs olon cur h0 h1 h2 h3 h4
    exact findLoop_inner env tzs lat lon olon cur b h0 h1 h2 h3 h4

/-- Witness for C8: concrete instantiation in quadrant "a" of the initial
box. -/
theorem C8_quadrant_rule_witness :
    quadStep initBox 1 1 =
      ("a", { initBox with bottom := initBox.midLat, left := initBox.midLon }) :=
  (C8_quadrant_rule initBox 1 1).1 (by norm_num [initBox]) (by norm_num [initBox])

/-- A value with a numeric field at a key other than `length` must be an
object, hence truthy. -/
theorem truthy_of_get_num (c : Json) (k : String) (p : ℚ) (hk : k ≠ "length")
    (h : c.get k = .num p) : c.truthy = true := by
  cases c with
  | obj fields => rfl
  | arr elems =>
    rw [Json.get, if_neg (by simpa using hk)] at h
    exact Json.noConfusion h
  | str s =>
    rw [Json.get, if_neg (by simpa using hk)] at h
    exact Json.noConfusion h
  | undefined => exact Json.noConfusion h
  | null => exact Json.noConfusion h
  | bool b => exact Json.noConfusion h
  | num q => exact Json.noConfusion h

/-- C9: a GeometryLeaf with numeric fields `pos = p ≥ 0` and `len = l > 0`
reached by the descent invokes the geometry provider exactly once, with
the inclusive byte range [p, p + l - 1]. -/
theorem C9_geometry_byte_range (env : Env) (tzs : List String)
    (lat lon olon : ℚ) (cur : Json) (box : Box) (p l : ℚ)
    (h0 : cur.isNullish = false)
    (hpos : (cur.get (quadStep box lat lon).1).get "pos" = .num p)
    (hp : 0 ≤ p)
    (hlen : (cur.get (quadStep box lat lon).1).get "len" = .num l)
    (hl : 0 < l) :
    (findLoop env tzs lat lon olon cur box).2 =
      [.geoFetch (some p) (some (p + l - 1))] := by
  have hlab : (quadStep box lat lon).1 ≠ "length" := by
    rcases quadStep_label box lat lon with h | h | h | h <;> rw [h] <;> decide
  have h1 : (cur.get (quadStep box lat lon).1).truthy = true :=
    truthy_of_get_num (cur.get (quadStep box lat lon).1) "pos" p
      (by decide) hpos
  have h2 : (jsGE0 ((cur.get (quadStep box lat lon).1).get "pos") &&
      ((cur.get (quadStep box lat lon).1).get "len").truthy) = true := by
    rw [hpos, hlen]
    simp [jsGE0, Json.toNum?, Json.truthy, hp]
    exact (ne_of_gt hl)
  rw [findLoop_geom env tzs lat lon olon cur box h0 h1 h2]
  rw [hpos, hlen]
  simp [jsRangeEnd, Json.toNum?]

/-- Witness for C9: a leaf with pos 0 and len 4 fetches bytes [0, 3]. -/
theorem C9_geometry_byte_range_witness :
    (findLoop envC [] 0 0 0
      (Json.obj [("a", Json.obj [("pos", Json.num 0), ("len", Json.num 4)])])
      initBox).2 = [.geoFetch (some 0) (some (0 + 4 - 1))] :=
  C9_geometry_byte_range envC [] 0 0 0
    (Json.obj [("a", Json.obj [("pos", Json.num 0), ("len", Json.num 4)])])
    initBox 0 4 rfl (by with_unfolding_all rfl) le_rfl
    (by with_unfolding_all rfl) (by norm_num)

/-- C10: the domain boundaries other than the exact north pole get no
special case.  Latitude -90 and longitudes 180 and -180 pass validation
and proceed to the normal clamped descent (`findCore`), with the clamps
evaluating to -89.9999, 179.9999 and -179.9999 respectively; and any
validated latitude other than exactly 90 descends the same way, so there
is no symmetric south-pole short-circuit. -/
theorem C10_boundary_no_special_case (env : Env) (form : TzForm)
    (st : InstState) (latq lonq : ℚ)
    (hlo : -180 ≤ lonq) (hhi : lonq ≤ 180)
    (hla1 : -90 ≤ latq) (hla2 : latq < 90) :
    (findImpl env form st (some (-90)) (some lonq) =
      findCore env form st (-90) lonq) ∧
    clampLat (-90) = -89.9999 ∧
    (findImpl env form st (some latq) (some 180) =
      findCore env form st latq 180) ∧
    clampLon 180 = 179.9999 ∧
    (findImpl env form st (some latq) (some (-180)) =
      findCore env form st latq (-180)) ∧
    clampLon (-180) = -179.9999 ∧
    (findImpl env form st (some latq) (some lonq) =
      findCore env form st latq lonq) := by
  have hne : (some latq : JsNum) ≠ some 90 := by
    simp only [ne_eq, Option.some.injEq]
    exact ne_of_lt hla2
  refine ⟨?_, ?_, ?_, ?_, ?_, ?_, ?_⟩
  · rw [findImpl_descend env form st (some (-90)) (some lonq)
      (badLat_false (-90) le_rfl (by norm_num)) (badLon_false lonq hlo hhi)
      (by simp only [ne_eq, Option.some.injEq]; norm_num)]
    rfl
  · rw [clampLat, if_neg (by norm_num), if_pos (by norm_num)]
  · rw [findImpl_descend env form st (some latq) (some 180)
      (badLat_false latq hla1 (le_of_lt hla2))
      (badLon_false 180 (by norm_num) le_rfl) hne]
    rfl
  · rw [clampLon, if_pos (by norm_num)]
  · rw [findImpl_descend env form st (some latq) (some (-180))
      (badLat_false latq hla1 (le_of_lt hla2))
      (badLon_false (-180) le_rfl (by norm_num)) hne]
    rfl
  · rw [clampLon, if_neg (by norm_num), if_pos (by norm_num)]
  · rw [findImpl_descend env form st (some latq) (some lonq)
      (badLat_false latq hla1 (le_of_lt hla2)) (badLon_false lonq hlo hhi)
      hne]
    rfl

/-- Witness for C10: concrete boundary coordinates on the concrete
environment. -/
theorem C10_boundary_no_special_case_witness :
    findImpl envA .func ⟨none⟩ (some (-90)) (some 0) =
      findCore envA .func ⟨none⟩ (-90) 0 ∧
    clampLat (-90) = -89.9999 ∧ clampLon 180 = 179.9999 ∧
    clampLon (-180) = -179.9999 := by
  have h := C10_boundary_no_special_case envA .func ⟨none⟩ 0 0 (by norm_num)
    (by norm_num) (by norm_num) (by norm_num)
  exact ⟨h.1, h.2.1, h.2.2.2.1, h.2.2.2.2.2.1⟩

end GeoTz
